import Mathlib

/-!
Verification development for the `onlyShowFirstAvailableSlot` end-to-end test
suite of a scheduling application (two Playwright test files).

The excerpt contains only the test scripts: fixture setup (users, event
types, bookings, attendees, booking seats), browser interaction, and
assertions on rendered time slots.  The slot-availability engine the tests
exercise is application code that is not part of the excerpt; where a claim
is about the engine's behaviour, the engine is modelled from the spec (each
such definition is marked `Modelled from the spec:` in its doc comment).
Times are minutes from midnight UTC on the test's day ("tomorrow"):
9:00 = 540, 9:30 = 570, 17:00 = 1020.
-/

/-- A working-hours time range, minutes from midnight UTC
(`defaultDateRange` in the source: `start`/`end` Dates at 9:00/17:00 UTC;
the source's `end` field is named `stop` here). -/
structure TimeRange where
  start : Nat
  stop : Nat
deriving DecidableEq, Repr

/-- `defaultDateRange` from the source: 9 AM - 5 PM UTC. -/
def defaultDateRange : TimeRange := { start := 540, stop := 1020 }

/-- `allDaysAvailable` from the source: the same range on all seven days
(`Array(7).fill([defaultDateRange])`). -/
def allDaysAvailable : List (List TimeRange) := List.replicate 7 [defaultDateRange]

/-- The event-type fields the tests configure (at `users.create` or via a
later `prisma.eventType.update`). -/
structure EventTypeConfig where
  title : String
  slug : String
  length : Nat
  beforeEventBuffer : Nat := 0
  afterEventBuffer : Nat := 0
  seatsPerTimeSlot : Option Nat := none
  onlyShowFirstAvailableSlot : Bool := false
  disableGuests : Bool := false
deriving DecidableEq, Repr

/-- An attendee row as seeded through `attendees.createMany` in the tests. -/
structure AttendeeSeed where
  name : String
  email : String
  timeZone : String
deriving DecidableEq, Repr

/-- A booking as seeded through `bookings.create` in the tests:
status, start/end (minutes from midnight UTC on the test day), attendees. -/
structure BookingSeed where
  status : String
  startMinutes : Nat
  endMinutes : Nat
  attendees : List AttendeeSeed := []
deriving DecidableEq, Repr

/-- Half-open interval overlap on `Int` minutes. -/
def overlaps (s1 e1 s2 e2 : Int) : Bool := s1 < e2 && s2 < e1

/-- Modelled from the spec: whether an existing booking makes a candidate
slot `t` unavailable.  The engine itself is not in the excerpt; this follows
the spec's stated properties: an accepted booking blocks a slot it overlaps;
a `beforeEventBuffer` requires the buffer before the candidate slot to be
free of bookings, an `afterEventBuffer` keeps the buffer after an existing
booking busy; for seated events a booking at the same slot start blocks the
slot only once its attendee count has reached `seatsPerTimeSlot`. -/
def bookingBlocksSlot (et : EventTypeConfig) (b : BookingSeed) (t : Nat) : Bool :=
  if b.status == "ACCEPTED" then
    match et.seatsPerTimeSlot with
    | some cap =>
        if b.startMinutes == t then decide (cap ≤ b.attendees.length)
        else overlaps ((t : Int) - et.beforeEventBuffer) ((t : Int) + et.length)
          (b.startMinutes : Int) ((b.endMinutes : Int) + et.afterEventBuffer)
    | none =>
        overlaps ((t : Int) - et.beforeEventBuffer) ((t : Int) + et.length)
          (b.startMinutes : Int) ((b.endMinutes : Int) + et.afterEventBuffer)
  else false

/-- Modelled from the spec: the candidate slot starts for a day — the
schedule's working range divided into event-length steps ("slots are at
30-min intervals" for the tests' 30-minute events). -/
def slotGrid (r : TimeRange) (et : EventTypeConfig) : List Nat :=
  (List.range ((r.stop - r.start) / et.length)).map (fun i => r.start + i * et.length)

/-- Modelled from the spec: the available slots of the day — grid slots not
blocked by any seeded booking. -/
def availableSlots (r : TimeRange) (et : EventTypeConfig) (bs : List BookingSeed) : List Nat :=
  (slotGrid r et).filter (fun t => bs.all (fun b => !(bookingBlocksSlot et b t)))

/-- Modelled from the spec: the slots the booking page renders for the
selected day — all available slots, or only the first when the event type
has `onlyShowFirstAvailableSlot` enabled.  (The list of slot start times
does not depend on the viewer's display timezone; only the displayed text
does, see `displayedSlotText`.) -/
def renderedSlots (r : TimeRange) (et : EventTypeConfig) (bs : List BookingSeed) : List Nat :=
  if et.onlyShowFirstAvailableSlot then (availableSlots r et bs).take 1
  else availableSlots r et bs

/-- Modelled from the spec: the "Seats available" label is shown on a seated
slot while every booking at that slot start has attendee count below
`seatsPerTimeSlot`. -/
def seatsAvailableLabelShown (et : EventTypeConfig) (bs : List BookingSeed) (t : Nat) : Bool :=
  match et.seatsPerTimeSlot with
  | some cap => bs.all (fun b => !(b.startMinutes == t) || decide (b.attendees.length < cap))
  | none => false

/-- Modelled from the spec: `bookTimeSlot` followed by the success page is
reached exactly when the clicked slot is among the day's available slots. -/
def bookSlotSucceeds (r : TimeRange) (et : EventTypeConfig) (bs : List BookingSeed) (t : Nat) : Bool :=
  (availableSlots r et bs).contains t

/-- Two-digit decimal rendering of a minute/hour component. -/
def twoDigits (n : Nat) : String := if n < 10 then "0" ++ toString n else toString n

/-- Modelled from the spec: the `data-time` attribute a rendered slot
exposes, as far as the tests inspect it — it contains the slot's wall-clock
`HH:MM`. -/
def dataTime (t : Nat) : String := twoDigits (t / 60) ++ ":" ++ twoDigits (t % 60)

/-- Whether `n` occurs as a contiguous leading run of `h`. -/
def leadMatch : List Char → List Char → Bool
  | [], _ => true
  | _ :: _, [] => false
  | a :: as, b :: bs => a == b && leadMatch as bs

/-- Whether `n` occurs as a contiguous run anywhere in `h`. -/
def subRun (n : List Char) : List Char → Bool
  | [] => leadMatch n []
  | c :: t => leadMatch n (c :: t) || subRun n t

/-- `expect(s).toContain(needle)` from the tests: substring containment. -/
def strHasSub (needle hay : String) : Bool := subRun needle.data hay.data

/-- Modelled from the spec: minutes offset from UTC of the two IANA zones
the timezone test selects, on the test's date (both zones observing
daylight saving: London BST +1h, New York EDT -4h). -/
def tzOffset : String → Int
  | "Europe/London" => 60
  | "America/New_York" => -240
  | _ => 0

/-- The `h:mma` 12-hour lowercase rendering the test's dayjs `format` call
produces (from the source: `.format("h:mma").toLowerCase()`). -/
def formatHmma (t : Nat) : String :=
  let h24 := t / 60 % 24
  let h12 := if h24 % 12 == 0 then 12 else h24 % 12
  toString h12 ++ ":" ++ twoDigits (t % 60) ++ (if h24 < 12 then "am" else "pm")

/-- Modelled from the spec: the text a rendered slot displays — the slot's
UTC start converted to the booker's currently selected timezone. -/
def displayedSlotText (tz : String) (t : Nat) : String :=
  formatHmma (((t : Int) + tzOffset tz).toNat)

/-- The test's expected time (from the source): tomorrow 9:00 UTC converted
into the selected zone and formatted `h:mma` lowercase. -/
def expectedTzTime (tz : String) : String :=
  formatHmma (((540 : Int) + tzOffset tz).toNat)

/-- The event type of the plain 30-minute tests: `onlyShowFirstAvailableSlot`
enabled, no buffers, no seats. -/
def etThirtyMin : EventTypeConfig :=
  { title := "30 min", slug := "30-min", length := 30, onlyShowFirstAvailableSlot := true }

/-- The event type of the `beforeEventBuffer` test. -/
def etBuffered : EventTypeConfig :=
  { title := "Buffered event", slug := "buffered", length := 30,
    beforeEventBuffer := 30, onlyShowFirstAvailableSlot := true }

/-- The event type of the `afterEventBuffer` test. -/
def etBufferedAfter : EventTypeConfig :=
  { title := "Buffered event", slug := "buffered", length := 30,
    afterEventBuffer := 15, onlyShowFirstAvailableSlot := true }

/-- The seated event type with two seats per time slot. -/
def etSeatsTwo : EventTypeConfig :=
  { title := "Seated event", slug := "seats", length := 30,
    seatsPerTimeSlot := some 2, onlyShowFirstAvailableSlot := true, disableGuests := true }

/-- The seated event type with three seats per time slot. -/
def etSeatsThree : EventTypeConfig :=
  { title := "Seated event", slug := "seats", length := 30,
    seatsPerTimeSlot := some 3, onlyShowFirstAvailableSlot := true, disableGuests := true }

/-- First seeded attendee of the seated tests. -/
def attendeeOne : AttendeeSeed :=
  { name := "Attendee One", email := "attendee1@seats.com", timeZone := "Europe/Berlin" }

/-- Second seeded attendee of the seated tests. -/
def attendeeTwo : AttendeeSeed :=
  { name := "Attendee Two", email := "attendee2@seats.com", timeZone := "Europe/Berlin" }

/-- The accepted 9:00-9:30 booking the non-seated tests seed for tomorrow. -/
def booking900 : BookingSeed :=
  { status := "ACCEPTED", startMinutes := 540, endMinutes := 570 }

/-- The seeded seated booking with one attendee (partially-booked test). -/
def seatedBookingOneAttendee : BookingSeed :=
  { status := "ACCEPTED", startMinutes := 540, endMinutes := 570, attendees := [attendeeOne] }

/-- The seeded seated booking with two attendees (capacity-reached test). -/
def seatedBookingTwoAttendees : BookingSeed :=
  { status := "ACCEPTED", startMinutes := 540, endMinutes := 570,
    attendees := [attendeeOne, attendeeTwo] }

/-- The DOM test-hooks the spec's §6 lists as required of the application
under test. -/
inductive DomHook where
  | dayWithDisabledAttr
  | timeWithDataTimeAttr
  | incrementMonthControl
  | timezoneSelector
  | successPageMarker
deriving DecidableEq, Repr

/-- The spec's list of DOM test-hooks. -/
def specListedHooks : List DomHook :=
  [DomHook.dayWithDisabledAttr, DomHook.timeWithDataTimeAttr, DomHook.incrementMonthControl,
   DomHook.timezoneSelector, DomHook.successPageMarker]

/-- The DOM hooks each test of the unnamed file uses, in test order:
only-one-slot-and-book, beforeEventBuffer, afterEventBuffer, next-available,
seat-capacity, partially-booked, timezone (from the selectors each test's
body creates: `[data-testid="day"][data-disabled=...]`,
`[data-testid="time"]`/`data-time`, `[data-testid=success-page]`,
`[data-testid="event-meta-current-timezone"]`/`timezone-select`). -/
def unnamedFileHooks : List (List DomHook) :=
  [[DomHook.dayWithDisabledAttr, DomHook.timeWithDataTimeAttr, DomHook.successPageMarker],
   [DomHook.dayWithDisabledAttr, DomHook.timeWithDataTimeAttr],
   [DomHook.dayWithDisabledAttr, DomHook.timeWithDataTimeAttr],
   [DomHook.dayWithDisabledAttr, DomHook.timeWithDataTimeAttr],
   [DomHook.dayWithDisabledAttr, DomHook.timeWithDataTimeAttr, DomHook.successPageMarker],
   [DomHook.dayWithDisabledAttr, DomHook.timeWithDataTimeAttr],
   [DomHook.dayWithDisabledAttr, DomHook.timeWithDataTimeAttr, DomHook.timezoneSelector]]

/-- The DOM hooks each test of `only-show-first-available-slot.e2e.ts` uses,
in test order: seat-capacity, partially-booked, only-one-slot (seated),
only-one-slot (regular), next-available, allow-booking. -/
def e2eFileHooks : List (List DomHook) :=
  [[DomHook.dayWithDisabledAttr, DomHook.timeWithDataTimeAttr, DomHook.successPageMarker],
   [DomHook.dayWithDisabledAttr, DomHook.timeWithDataTimeAttr],
   [DomHook.dayWithDisabledAttr, DomHook.timeWithDataTimeAttr],
   [DomHook.dayWithDisabledAttr, DomHook.timeWithDataTimeAttr],
   [DomHook.dayWithDisabledAttr, DomHook.timeWithDataTimeAttr],
   [DomHook.dayWithDisabledAttr, DomHook.timeWithDataTimeAttr, DomHook.successPageMarker]]

/-- Hook usage of every test in the excerpt. -/
def allTestHookLists : List (List DomHook) := unnamedFileHooks ++ e2eFileHooks

/-- One assertion a test makes on the rendered page. -/
inductive Assertion where
  | slotCountIs (n : Nat)
  | firstSlotTimeHas (s : String)
  | seatsAvailableVisible
  | successPageVisible
deriving DecidableEq, Repr

/-- A test script as embedded for comparison: whether the
`onlyShowFirstAvailableSlot` flag was applied by a post-creation
`prisma.eventType.update` (rather than at `users.create`), the effective
event type, the seeded bookings, and the final assertions. -/
structure TestScript where
  name : String
  flagSetViaUpdate : Bool
  eventType : EventTypeConfig
  seeded : List BookingSeed
  asserts : List Assertion
deriving DecidableEq, Repr

/-- "Should show next available slot when first slot is booked" in the
unnamed file: flag set at `users.create`, 9:00-9:30 accepted booking seeded,
asserting one slot whose `data-time` contains "9:30". -/
def nextSlotScriptUnnamed : TestScript :=
  { name := "Should show next available slot when first slot is booked",
    flagSetViaUpdate := false,
    eventType := etThirtyMin,
    seeded := [booking900],
    asserts := [Assertion.slotCountIs 1, Assertion.firstSlotTimeHas "9:30"] }

/-- "Should show next available slot when first slot is booked" in
`only-show-first-available-slot.e2e.ts`: the default `users.create()`
30-minute "30 min"/"30-min" event type (modelled from the spec: the user
fixture's default event types are not in the excerpt) with the flag enabled
by `prisma.eventType.update`, same seeded booking, same assertions. -/
def nextSlotScriptE2e : TestScript :=
  { name := "Should show next available slot when first slot is booked",
    flagSetViaUpdate := true,
    eventType := etThirtyMin,
    seeded := [booking900],
    asserts := [Assertion.slotCountIs 1, Assertion.firstSlotTimeHas "9:30"] }

/-- A test file's top-level registrations: parallel mode and whether a
`test.afterEach(({ users }) => users.deleteAll())` hook is registered. -/
structure TestFile where
  fileName : String
  parallelMode : Bool
  afterEachDeletesAllUsers : Bool
  testNames : List String
deriving DecidableEq, Repr

/-- The unnamed test file (seven tests, afterEach deletes all users). -/
def unnamedTestFile : TestFile :=
  { fileName := "unnamed/part_000",
    parallelMode := true,
    afterEachDeletesAllUsers := true,
    testNames :=
      ["Should show only one slot per day and allow booking it",
       "Should account for beforeEventBuffer when showing first available slot",
       "Should account for afterEventBuffer when showing first available slot",
       "Should show next available slot when first slot is booked",
       "Should show and allow booking next available slot when first slot reaches seat capacity",
       "Should show slot when seats are partially booked",
       "Should show correct first slot time when booker changes timezone"] }

/-- `only-show-first-available-slot.e2e.ts` (six tests, afterEach deletes
all users). -/
def e2eTestFile : TestFile :=
  { fileName := "apps/web/playwright/only-show-first-available-slot.e2e.ts",
    parallelMode := true,
    afterEachDeletesAllUsers := true,
    testNames :=
      ["Should show and allow booking next available slot when first slot reaches seat capacity",
       "Should show slot when seats are partially booked",
       "Should show only one slot per day when enabled",
       "Should show only one slot per day when enabled",
       "Should show next available slot when first slot is booked",
       "Should allow booking the shown slot"] }

/-- Modelled from the spec: the users seeded by a test that remain after the
runner finishes it — the body (whether it passed or failed) is followed by
the file's `afterEach` hooks, and `users.deleteAll` removes every user the
test's fixture created. -/
def usersAfterTeardown (f : TestFile) (createdUsers : List String) (_bodyPassed : Bool) :
    List String :=
  if f.afterEachDeletesAllUsers then [] else createdUsers

/-- An attendee row as read back by `prisma.attendee.findMany`
(`select: { id, name, email }`). -/
structure AttendeeRow where
  id : Nat
  name : String
  email : String
deriving DecidableEq, Repr

/-- A row passed to `prisma.bookingSeat.createMany` (`data.responses`
flattened to its `name`/`email` fields). -/
structure BookingSeatRow where
  bookingId : Nat
  attendeeId : Nat
  referenceUid : String
  responsesName : String
  responsesEmail : String
deriving DecidableEq, Repr

/-- The `bookingSeat.createMany` payload built in both seated tests:
`bookingAttendees.map(attendee => ({ bookingId, attendeeId: attendee.id,
referenceUid: uuidv4(), data: { responses: { name, email } } }))`, with the
fresh `uuidv4()` calls modelled as a supply `uuid` indexed by position. -/
def bookingSeatRows (bid : Nat) (uuid : Nat → String) (atts : List AttendeeRow) :
    List BookingSeatRow :=
  atts.enum.map (fun p =>
    { bookingId := bid, attendeeId := p.2.id, referenceUid := uuid p.1,
      responsesName := p.2.name, responsesEmail := p.2.email })

/-- The attendee rows of the two-attendee seated booking, with database ids. -/
def seatedAttendeeRows : List AttendeeRow :=
  [{ id := 1, name := "Attendee One", email := "attendee1@seats.com" },
   { id := 2, name := "Attendee Two", email := "attendee2@seats.com" }]

/-- A concrete fresh-UUID supply for witnesses. -/
def demoUuid (n : Nat) : String := "ref-" ++ toString n

/-- C1: with `onlyShowFirstAvailableSlot` enabled (regular or seated event
type alike), whenever the selected day has any available slot the booking
page renders exactly one time-slot element. -/
theorem renderedSlots_length_one (r : TimeRange) (et : EventTypeConfig) (bs : List BookingSeed)
    (hFlag : et.onlyShowFirstAvailableSlot = true)
    (hAvail : availableSlots r et bs ≠ []) :
    (renderedSlots r et bs).length = 1 := by
  unfold renderedSlots
  rw [hFlag, if_pos rfl, List.length_take]
  have hpos : 0 < (availableSlots r et bs).length := List.length_pos.mpr hAvail
  omega

/-- Witness for C1 at the first test's fixture (regular 30-minute event,
no bookings) and at a seated fixture. -/
theorem renderedSlots_length_one_witness :
    (etThirtyMin.onlyShowFirstAvailableSlot = true
      ∧ availableSlots defaultDateRange etThirtyMin [] ≠ []
      ∧ (renderedSlots defaultDateRange etThirtyMin []).length = 1)
    ∧ (etSeatsTwo.onlyShowFirstAvailableSlot = true
      ∧ availableSlots defaultDateRange etSeatsTwo [seatedBookingTwoAttendees] ≠ []
      ∧ (renderedSlots defaultDateRange etSeatsTwo [seatedBookingTwoAttendees]).length = 1) :=
  ⟨⟨rfl, by decide, renderedSlots_length_one _ _ _ rfl (by decide)⟩,
   ⟨rfl, by decide, renderedSlots_length_one _ _ _ rfl (by decide)⟩⟩

/-- C2: with the opening 9:00-9:30 slot booked (accepted), the single
rendered slot moves by the event length: its `data-time` contains "9:30"
and no longer "9:00". -/
theorem bookedFirstSlot_shifts_by_event_length :
    renderedSlots defaultDateRange etThirtyMin [] = [540]
    ∧ renderedSlots defaultDateRange etThirtyMin [booking900]
        = [booking900.startMinutes + etThirtyMin.length]
    ∧ booking900.startMinutes + etThirtyMin.length = 570
    ∧ strHasSub "9:30" (dataTime 570) = true
    ∧ strHasSub "9:00" (dataTime 570) = false := by decide

/-- C3: with the 9:00-9:30 booking in place, a 30-minute
`beforeEventBuffer` or a 15-minute `afterEventBuffer` pushes the single
rendered slot to 10:00 — the next slot boundary leaving the buffer free
(9:45 is not on the 30-minute grid). -/
theorem buffers_push_first_slot_to_next_boundary :
    renderedSlots defaultDateRange etBuffered [booking900] = [600]
    ∧ renderedSlots defaultDateRange etBufferedAfter [booking900] = [600]
    ∧ strHasSub "10:00" (dataTime 600) = true
    ∧ booking900.endMinutes + etBufferedAfter.afterEventBuffer = 585
    ∧ (slotGrid defaultDateRange etBufferedAfter).contains 585 = false
    ∧ (slotGrid defaultDateRange etBufferedAfter).contains 600 = true := by decide

/-- C4: a seated slot stays offered with a "Seats available" label while
its booking's attendee count (1) is below `seatsPerTimeSlot` (3), and
disappears once capacity is reached (2 attendees, 2 seats): the single
rendered slot is then 9:30 and can be booked to the success page. -/
theorem seated_capacity_governs_first_slot :
    renderedSlots defaultDateRange etSeatsThree [seatedBookingOneAttendee] = [540]
    ∧ strHasSub "9:00" (dataTime 540) = true
    ∧ seatsAvailableLabelShown etSeatsThree [seatedBookingOneAttendee] 540 = true
    ∧ seatedBookingOneAttendee.attendees.length = 1
    ∧ renderedSlots defaultDateRange etSeatsTwo [seatedBookingTwoAttendees] = [570]
    ∧ strHasSub "9:30" (dataTime 570) = true
    ∧ seatedBookingTwoAttendees.attendees.length = 2
    ∧ bookSlotSucceeds defaultDateRange etSeatsTwo [seatedBookingTwoAttendees] 570 = true := by
  decide

/-- C5: a non-seated 30-minute event with no buffers, a 9:00-17:00 schedule
and no bookings renders as its single slot the schedule's opening time, and
its `data-time` contains "9:00". -/
theorem first_slot_is_schedule_opening :
    (availableSlots defaultDateRange etThirtyMin []).head? = some defaultDateRange.start
    ∧ renderedSlots defaultDateRange etThirtyMin [] = [defaultDateRange.start]
    ∧ defaultDateRange.start = 540
    ∧ etThirtyMin.beforeEventBuffer = 0 ∧ etThirtyMin.afterEventBuffer = 0
    ∧ etThirtyMin.seatsPerTimeSlot = none
    ∧ allDaysAvailable.length = 7
    ∧ allDaysAvailable.all (fun day => day == [defaultDateRange]) = true
    ∧ strHasSub "9:00" (dataTime 540) = true := by decide

/-- C6: the displayed slot text equals the 9:00-UTC schedule slot converted
to the selected timezone (10:00am in Europe/London, 5:00am in
America/New_York on the test's date), it contains the test's expected
string in both zones, and the rendered slot count is one (the rendered
slot list is independent of the display timezone). -/
theorem timezone_display_respects_selection :
    (renderedSlots defaultDateRange etThirtyMin []).length = 1
    ∧ displayedSlotText "Europe/London" 540 = "10:00am"
    ∧ expectedTzTime "Europe/London" = "10:00am"
    ∧ strHasSub (expectedTzTime "Europe/London") (displayedSlotText "Europe/London" 540) = true
    ∧ displayedSlotText "America/New_York" 540 = "5:00am"
    ∧ expectedTzTime "America/New_York" = "5:00am"
    ∧ strHasSub (expectedTzTime "America/New_York") (displayedSlotText "America/New_York" 540)
        = true := by decide

/-- C7 counterexample: it is not the case that every hook the spec lists is
exercised by some test in the excerpt — the `incrementMonth` control never
appears in either file. -/
theorem dom_hooks_claim_counterexample :
    (specListedHooks.all (fun h => allTestHookLists.any (fun hs => hs.contains h))) = false := by
  decide

/-- C7 amended: every listed hook except the `incrementMonth` control is
exercised by some test in the excerpt, and the `incrementMonth` control is
exercised by none. -/
theorem dom_hooks_exercised_except_incrementMonth :
    ((specListedHooks.filter (fun h => !(h == DomHook.incrementMonthControl))).all
        (fun h => allTestHookLists.any (fun hs => hs.contains h))) = true
    ∧ (allTestHookLists.any (fun hs => hs.contains DomHook.incrementMonthControl)) = false := by
  decide

/-- C8: both files register an `afterEach` hook calling `users.deleteAll`,
so after any test body (passing or failing) every user that test created is
deleted. -/
theorem afterEach_deletes_all_seeded_users :
    unnamedTestFile.afterEachDeletesAllUsers = true
    ∧ e2eTestFile.afterEachDeletesAllUsers = true
    ∧ unnamedTestFile.testNames.length = 7
    ∧ e2eTestFile.testNames.length = 6
    ∧ ∀ (created : List String) (passed : Bool),
        usersAfterTeardown unnamedTestFile created passed = []
        ∧ usersAfterTeardown e2eTestFile created passed = [] :=
  ⟨rfl, rfl, rfl, rfl, fun _ _ => ⟨rfl, rfl⟩⟩

/-- C9: the `bookingSeat.createMany` payload has exactly one row per
attendee, each referencing that attendee's id (all distinct when the
attendee ids are), carrying a fresh UUID (all distinct when the supply is
duplicate-free on the used indices), a `responses` payload equal to the
attendee's name and email, and the seeded booking's id. -/
theorem bookingSeat_rows_match_attendees (bid : Nat) (uuid : Nat → String)
    (atts : List AttendeeRow)
    (hIds : (atts.map AttendeeRow.id).Nodup)
    (hUuid : ((List.range atts.length).map uuid).Nodup) :
    (bookingSeatRows bid uuid atts).length = atts.length
    ∧ (bookingSeatRows bid uuid atts).map BookingSeatRow.attendeeId = atts.map AttendeeRow.id
    ∧ ((bookingSeatRows bid uuid atts).map BookingSeatRow.attendeeId).Nodup
    ∧ ((bookingSeatRows bid uuid atts).map BookingSeatRow.referenceUid).Nodup
    ∧ (bookingSeatRows bid uuid atts).map (fun row => (row.responsesName, row.responsesEmail))
        = atts.map (fun a => (a.name, a.email))
    ∧ ((bookingSeatRows bid uuid atts).all (fun row => row.bookingId == bid)) = true := by
  have hId : (bookingSeatRows bid uuid atts).map BookingSeatRow.attendeeId
      = atts.map AttendeeRow.id := by
    unfold bookingSeatRows
    rw [List.map_map]
    conv_rhs => rw [← List.enum_map_snd atts, List.map_map]
    rfl
  have hUid : (bookingSeatRows bid uuid atts).map BookingSeatRow.referenceUid
      = (List.range atts.length).map uuid := by
    unfold bookingSeatRows
    rw [List.map_map]
    conv_rhs => rw [← List.enum_map_fst atts, List.map_map]
    rfl
  have hResp : (bookingSeatRows bid uuid atts).map (fun row => (row.responsesName, row.responsesEmail))
      = atts.map (fun a => (a.name, a.email)) := by
    unfold bookingSeatRows
    rw [List.map_map]
    conv_rhs => rw [← List.enum_map_snd atts, List.map_map]
    rfl
  refine ⟨?_, hId, ?_, ?_, hResp, ?_⟩
  · unfold bookingSeatRows
    rw [List.length_map, List.enum_length]
  · rw [hId]; exact hIds
  · rw [hUid]; exact hUuid
  · unfold bookingSeatRows
    rw [List.all_eq_true]
    intro row hrow
    rw [List.mem_map] at hrow
    obtain ⟨p, hp, rfl⟩ := hrow
    exact beq_self_eq_true bid

/-- Witness for C9 at the two-attendee seated booking with a concrete fresh
UUID supply. -/
theorem bookingSeat_rows_match_attendees_witness :
    (seatedAttendeeRows.map AttendeeRow.id).Nodup
    ∧ ((List.range seatedAttendeeRows.length).map demoUuid).Nodup
    ∧ ((bookingSeatRows 7 demoUuid seatedAttendeeRows).length = seatedAttendeeRows.length
        ∧ (bookingSeatRows 7 demoUuid seatedAttendeeRows).map BookingSeatRow.attendeeId
            = seatedAttendeeRows.map AttendeeRow.id
        ∧ ((bookingSeatRows 7 demoUuid seatedAttendeeRows).map BookingSeatRow.attendeeId).Nodup
        ∧ ((bookingSeatRows 7 demoUuid seatedAttendeeRows).map BookingSeatRow.referenceUid).Nodup
        ∧ (bookingSeatRows 7 demoUuid seatedAttendeeRows).map
              (fun row => (row.responsesName, row.responsesEmail))
            = seatedAttendeeRows.map (fun a => (a.name, a.email))
        ∧ ((bookingSeatRows 7 demoUuid seatedAttendeeRows).all
              (fun row => row.bookingId == 7)) = true) :=
  ⟨by decide, by decide,
   bookingSeat_rows_match_attendees 7 demoUuid seatedAttendeeRows (by decide) (by decide)⟩

/-- C10: the two "Should show next available slot when first slot is
booked" scripts differ in how the flag is configured (post-creation update
versus at user creation) yet seed the same accepted tomorrow-9:00-9:30
booking, make identical final assertions (one slot, `data-time` containing
"9:30"), and the modelled engine renders the same single 9:30 slot for
both. -/
theorem nextSlot_scripts_equivalent :
    nextSlotScriptUnnamed.flagSetViaUpdate = false
    ∧ nextSlotScriptE2e.flagSetViaUpdate = true
    ∧ nextSlotScriptUnnamed.eventType = nextSlotScriptE2e.eventType
    ∧ nextSlotScriptUnnamed.seeded = nextSlotScriptE2e.seeded
    ∧ nextSlotScriptUnnamed.seeded = [booking900]
    ∧ booking900.status = "ACCEPTED"
    ∧ booking900.startMinutes = 540 ∧ booking900.endMinutes = 570
    ∧ nextSlotScriptUnnamed.asserts = nextSlotScriptE2e.asserts
    ∧ nextSlotScriptUnnamed.asserts
        = [Assertion.slotCountIs 1, Assertion.firstSlotTimeHas "9:30"]
    ∧ renderedSlots defaultDateRange nextSlotScriptUnnamed.eventType nextSlotScriptUnnamed.seeded
        = renderedSlots defaultDateRange nextSlotScriptE2e.eventType nextSlotScriptE2e.seeded
    ∧ renderedSlots defaultDateRange nextSlotScriptUnnamed.eventType nextSlotScriptUnnamed.seeded
        = [570] := by decide
